import Mathlib

/-!
Verification of the Earth's Pulse sentiment pipeline.

Shallow embedding of the repository's code:
* the frontend TypeScript (Sidebar statistics, fetchJson retry helper,
  mood-point record type) is translated directly from
  `frontend/components/Sidebar.tsx`, `frontend/lib/api.ts`,
  `frontend/types/mood.ts`;
* the backend Python services (content resolver, sentiment classifier,
  mood aggregator/store, refresh scheduler, summary service with its
  TTL cache) are not part of this source tree — only their documentation
  is — so those components are modelled from the specification; each
  such definition carries a doc comment starting `Modelled from the
  spec:` naming the missing backend file.

Scores are represented as exact rationals (`ℚ`); JSON values, post texts
and labels as strings or small inductive types.
-/

namespace Frontend

/-- Mood point record as declared in `frontend/types/mood.ts`:
fields `lat`, `lng`, `label`, `score`, `source`, `text?`, `timestamp?`,
`city_name?`. -/
structure MoodPoint where
  lat : ℚ
  lng : ℚ
  label : String
  score : ℚ
  source : String
  text : Option String := none
  timestamp : Option String := none
  city_name : Option String := none
deriving Repr, DecidableEq

/-- From `Sidebar.tsx` line 20: `moods.filter(m => m.score > 0.3).length`. -/
def positiveCount (moods : List MoodPoint) : Nat :=
  (moods.filter (fun m => decide ((3 : ℚ)/10 < m.score))).length

/-- From `Sidebar.tsx` line 21: `moods.filter(m => m.score < -0.3).length`. -/
def negativeCount (moods : List MoodPoint) : Nat :=
  (moods.filter (fun m => decide (m.score < -(3 : ℚ)/10))).length

/-- From `Sidebar.tsx` line 22:
`moods.filter(m => m.score >= -0.3 && m.score <= 0.3).length`. -/
def neutralCount (moods : List MoodPoint) : Nat :=
  (moods.filter (fun m => decide (-(3 : ℚ)/10 ≤ m.score ∧ m.score ≤ (3 : ℚ)/10))).length

end Frontend

namespace Api

/-- Outcome of one fetch attempt as observed by `fetchJson`
(`frontend/lib/api.ts`): either `fetchWithTimeout` threw (network error or
abort), or it returned a response carrying an `ok` flag, a numeric
`status`, and a body whose JSON parse (`res.json().catch(() => null)`,
line 34) yields `some` parsed value or `none` (null). -/
inductive Outcome where
  | throwErr (msg : String)
  | response (ok : Bool) (status : Nat) (body : Option String)
deriving Repr, DecidableEq

/-- Error value thrown by `fetchJson`: either the error propagated from
`fetchWithTimeout`, or the `Error` built at `api.ts` lines 30-31 for a
non-ok response, which carries `res.status`. -/
inductive FetchErr where
  | network (msg : String)
  | http (status : Nat)
deriving Repr, DecidableEq

/-- The error a failed attempt contributes as `lastError` in the loop. -/
def attemptErr : Outcome → FetchErr
  | .throwErr m => .network m
  | .response _ s _ => .http s

/-- Retry loop of `fetchJson` (`api.ts` lines 25-41). `env i` is the
outcome of the i-th fetch attempt. Returns the result (`Except.error` =
thrown) together with the number of fetch attempts this call makes;
`lastError` starts out as `null` (`none`) and is re-thrown after the
loop exhausts the attempt budget (line 42). -/
def fetchJsonLoop (env : Nat → Outcome) :
    Nat → Nat → Option FetchErr → Except (Option FetchErr) (Option String) × Nat
  | _, 0, lastError => (.error lastError, 0)
  | i, n + 1, _ =>
    match env i with
    | .throwErr m =>
        let r := fetchJsonLoop env (i + 1) n (some (.network m))
        (r.1, r.2 + 1)
    | .response ok status _body =>
        if ok then (.ok _body, 1)
        else
          let r := fetchJsonLoop env (i + 1) n (some (.http status))
          (r.1, r.2 + 1)

/-- `fetchJson(url, options, attempts, timeout)` from `api.ts`,
with the sequence of attempt outcomes abstracted as `env`. -/
def fetchJson (env : Nat → Outcome) (attempts : Nat) :
    Except (Option FetchErr) (Option String) :=
  (fetchJsonLoop env 0 attempts none).1

/-- Number of fetch attempts `fetchJson` actually makes. -/
def fetchJsonAttempts (env : Nat → Outcome) (attempts : Nat) : Nat :=
  (fetchJsonLoop env 0 attempts none).2

/-- The claim's reading of the success case: a value returned by
`fetchJson` is the successfully parsed JSON body of an ok response. -/
def returnsParsedBody (env : Nat → Outcome) (attempts : Nat) : Prop :=
  ∀ v, fetchJson env attempts = .ok v →
    ∃ i s j, env i = .response true s (some j) ∧ v = some j

end Api

namespace Backend

/-- Mood label values used throughout the pipeline
(joyful = positive, anxious = negative). -/
inductive Label where
  | joyful
  | neutral
  | anxious
deriving Repr, DecidableEq

/-- Modelled from the spec: City Registry entry (backend
`cities.py` / registry data, absent from this source tree):
name, latitude, longitude, region. -/
structure City where
  name : String
  lat : ℚ
  lng : ℚ
  region : String
deriving Repr, DecidableEq

/-- Modelled from the spec: the Real/Fallback tagged union produced by one
content-resolution attempt (backend `social_fetcher.py`, absent):
exactly one variant per attempt. -/
inductive Candidate where
  | real (text platform : String) (author url : Option String)
  | fallback (text : String)
deriving Repr, DecidableEq

/-- Text payload of a candidate. -/
def Candidate.text : Candidate → String
  | .real t _ _ _ => t
  | .fallback t => t

/-- Whether the candidate is the synthetic fallback variant. -/
def Candidate.isFallback : Candidate → Bool
  | .real _ _ _ _ => false
  | .fallback _ => true

/-- Modelled from the spec: the fixed curated pool of synthetic mood texts
used for fallback candidates (backend `seed_data.py` sample_texts /
`social_fetcher.py` mock samples, absent); texts taken from the
accuracy report's excerpt. -/
def fallbackPool : List String :=
  ["Feeling great about the new project!",
   "Stressed about the deadline tomorrow.",
   "Traffic is terrible today.",
   "Beautiful weather for a walk in the park.",
   "Just another ordinary day in the city."]

/-- Modelled from the spec: pseudo-deterministic (for testability) choice
of a fallback text from the curated pool, keyed by the city name. -/
def pickFallback (city : City) : String :=
  fallbackPool.getD (city.name.length % fallbackPool.length) ""

/-- Modelled from the spec: outcome of the external content query issued
by the Content Resolver (content search provider, consumed through a
narrow interface): provider error, timeout, or a list of candidate
text snippets. -/
inductive ExternalResult where
  | errorResult
  | timeoutResult
  | results (posts : List String)
deriving Repr, DecidableEq

/-- Whether `pat` is a prefix of the character list. -/
def isPrefixList : List Char → List Char → Bool
  | [], _ => true
  | _ :: _, [] => false
  | p :: ps, c :: cs => p == c && isPrefixList ps cs

/-- Remove every occurrence of the pattern `pat` from a character list;
`fuel` bounds the recursion (the list length suffices). -/
def removeOccAux (pat : List Char) : Nat → List Char → List Char
  | _, [] => []
  | 0, l => l
  | fuel + 1, c :: cs =>
    if pat ≠ [] && isPrefixList pat (c :: cs) then
      removeOccAux pat fuel ((c :: cs).drop pat.length)
    else
      c :: removeOccAux pat fuel cs

/-- Remove every occurrence of `pat` from `s` (the model's counterpart
of Python str.replace(pat, "")). -/
def removeOcc (pat : String) (s : String) : String :=
  String.mk (removeOccAux pat.toList s.toList.length s.toList)

/-- Strip leading and trailing whitespace from a character list. -/
def trimList (l : List Char) : List Char :=
  ((l.dropWhile Char.isWhitespace).reverse.dropWhile Char.isWhitespace).reverse

/-- Strip Reddit deletion markers from a text, as described for the
backend text cleaning (`[deleted]`, `[removed]`). -/
def stripMarkers (s : String) : String :=
  removeOcc "[removed]" (removeOcc "[deleted]" s)

/-- Modelled from the spec: quality gate of the Content Resolver
(backend `social_fetcher.py`, absent): non-empty after stripping deletion
markers and at least 20 characters long. -/
def qualifies (s : String) : Bool :=
  20 ≤ (stripMarkers s).length

/-- Modelled from the spec: the Content Resolver in bulk/background mode
(backend `social_fetcher.py`, absent): issue the external query scoped to
the city; accept the first candidate passing the quality gates; if the
call errors, times out, or yields zero qualifying candidates, do not
raise — return a `Fallback` candidate drawn pseudo-deterministically
from the curated pool. Totality of this function is the no-raise /
exactly-one-candidate-per-attempt guarantee. -/
def resolveBulk (city : City) (ext : ExternalResult) : Candidate :=
  match ext with
  | .errorResult => .fallback (pickFallback city)
  | .timeoutResult => .fallback (pickFallback city)
  | .results posts =>
    match posts.filter qualifies with
    | [] => .fallback (pickFallback city)
    | t :: _ => .real t "reddit" none none

/-- Three-class output of the pretrained sentiment model. -/
inductive SLabel where
  | positive
  | negative
  | neutralCls
deriving Repr, DecidableEq

/-- Clamp a confidence value into [0, 1]. -/
def clamp01 (c : ℚ) : ℚ := max 0 (min 1 c)

/-- Modelled from the spec: intensity-preserving per-label confidence
remap of the Sentiment Classifier (backend `sentiment_analyzer.py`,
absent): positive → [0.3, 1.0], negative → [-1.0, -0.3],
neutral → [-0.3, 0.3]. -/
def remap : SLabel → ℚ → ℚ
  | .positive, c => 3/10 + 7/10 * clamp01 c
  | .negative, c => -(3/10 + 7/10 * clamp01 c)
  | .neutralCls, c => 3/5 * clamp01 c - 3/10

/-- Model class → mood label. -/
def toLabel : SLabel → Label
  | .positive => .joyful
  | .negative => .anxious
  | .neutralCls => .neutral

/-- Modelled from the spec: text cleaning of the Sentiment Classifier
(backend `sentiment_analyzer.py`, absent): strip deletion/removal markers
and markdown emphasis markers, then trim (URL removal and the emoji
allow-list are elided; they do not affect the properties proved here). -/
def cleanText (s : String) : String :=
  String.mk (trimList
    (removeOcc "~~" (removeOcc "__" (removeOcc "**" (stripMarkers s)))).toList)

/-- Modelled from the spec: positive lexicon of the keyword-weighted
heuristic fallback (backend `sentiment_analyzer.py`, absent), built from
the keywords documented in SENTIMENT_ENHANCEMENTS.md. -/
def positiveKeywords : List String :=
  ["grateful", "thanks", "celebrating", "success", "lovely", "perfect",
   "congratulations", "fantastic", "happy", "excited", "love", "wonderful",
   "great", "thrilled", "helpful"]

/-- Modelled from the spec: negative lexicon of the keyword-weighted
heuristic fallback (backend `sentiment_analyzer.py`, absent). -/
def negativeKeywords : List String :=
  ["broke", "broken", "rejected", "rejection", "frustrated", "disappointed",
   "upset", "creep", "creepy", "scared", "hurt", "pain", "painful",
   "horrible", "terrible", "hate", "worst", "stressed", "anxious", "bad"]

/-- Split a character list into words at spaces; `acc` accumulates the
current word in reverse. -/
def splitWordsAux : List Char → List Char → List (List Char)
  | [], acc => [acc.reverse]
  | c :: cs, acc =>
    if c == ' ' then acc.reverse :: splitWordsAux cs []
    else splitWordsAux cs (c :: acc)

/-- Lowercase a word. -/
def lowerList (l : List Char) : List Char :=
  l.map Char.toLower

/-- Number of words of `t` (split on spaces, lowercased) that appear in
the keyword list `kw`. -/
def countKeywords (kw : List String) (t : String) : Nat :=
  ((splitWordsAux t.toList []).filter
    (fun w => kw.any (fun k => lowerList w == k.toList))).length

/-- Modelled from the spec: deterministic keyword-weighted heuristic
classifier used when the trained model is unavailable (backend
`sentiment_analyzer.py`, absent). More positive than negative keywords
yields joyful with a score in the positive band, the reverse yields
anxious in the negative band, a balance (including zero keywords, i.e.
unclassifiable text) yields neutral with score 0.0. -/
def heuristicClassify (t : String) : Label × ℚ :=
  if countKeywords negativeKeywords t < countKeywords positiveKeywords t then
    (.joyful, min 1 (3/10 + ((countKeywords positiveKeywords t : ℚ) -
      (countKeywords negativeKeywords t : ℚ))/10))
  else if countKeywords positiveKeywords t < countKeywords negativeKeywords t then
    (.anxious, max (-1) (-(3/10 + ((countKeywords negativeKeywords t : ℚ) -
      (countKeywords positiveKeywords t : ℚ))/10)))
  else (.neutral, 0)

/-- Modelled from the spec: the Sentiment Classifier's ordered capability
chain (backend `sentiment_analyzer.py`, absent): clean the text; empty
cleaned text yields neutral 0.0; else try the trained model (`mdl` is
`none` on load failure, and per-text `none` models a runtime error),
remapping its confidence into the per-label band; else fall back to the
keyword heuristic. Totality of this function is the never-raises
guarantee. -/
def classify (mdl : Option (String → Option (SLabel × ℚ))) (text : String) :
    Label × ℚ :=
  if (cleanText text).isEmpty then (.neutral, 0)
  else
    match mdl with
    | some f =>
      match f (cleanText text) with
      | some (l, c) => (toLabel l, remap l c)
      | none => heuristicClassify (cleanText text)
    | none => heuristicClassify (cleanText text)

/-- The score band a label corresponds to. -/
def bandContains (l : Label) (s : ℚ) : Prop :=
  match l with
  | .joyful => 3/10 ≤ s ∧ s ≤ 1
  | .anxious => -1 ≤ s ∧ s ≤ -(3/10)
  | .neutral => -(3/10) ≤ s ∧ s ≤ 3/10

/-- The claim's band/label agreement read as three biconditionals. -/
def bandIffConsistent (p : Label × ℚ) : Prop :=
  (p.1 = Label.joyful ↔ (3/10 ≤ p.2 ∧ p.2 ≤ 1)) ∧
  (p.1 = Label.anxious ↔ (-1 ≤ p.2 ∧ p.2 ≤ -(3/10))) ∧
  (p.1 = Label.neutral ↔ (-(3/10) ≤ p.2 ∧ p.2 ≤ 3/10))

/-- Modelled from the spec: Mood Point record as persisted by the Mood
Store and served by the GET mood-points endpoint (backend `main.py`
serialization, absent): exactly the fields
{lat, lng, label, score, source, text?, timestamp, city_name,
is_fallback}. -/
structure MoodPoint where
  lat : ℚ
  lng : ℚ
  label : Label
  score : ℚ
  source : String
  text : Option String
  timestamp : Nat
  city_name : String
  is_fallback : Bool
deriving Repr, DecidableEq

/-- Modelled from the spec: construction of one city's Mood Point by the
Mood Aggregator (backend refresh job, absent): classify the candidate's
text and set `is_fallback` according to the candidate variant. -/
def buildMoodPoint (city : City) (cand : Candidate)
    (mdl : Option (String → Option (SLabel × ℚ))) (now : Nat) : MoodPoint :=
  { lat := city.lat
    lng := city.lng
    label := (classify mdl cand.text).1
    score := (classify mdl cand.text).2
    source := match cand with | .real _ p _ _ => p | .fallback _ => "fallback"
    text := some cand.text
    timestamp := now
    city_name := city.name
    is_fallback := cand.isFallback }

/-- Modelled from the spec: atomic upsert of the Mood Store keyed by city
name (backend store, absent): the new point supersedes in place any
previous point for the same city; most recent point first. -/
def upsert (p : MoodPoint) (st : List MoodPoint) : List MoodPoint :=
  p :: st.filter (fun q => q.city_name != p.city_name)

/-- Modelled from the spec: one full refresh cycle of the Mood Aggregator
(backend refresh job, absent): for each city of the registry, resolve a
candidate in fallback-permissive bulk mode, classify it, build a Mood
Point and upsert it; `ext` gives each city's external query outcome, so
per-city resolver failures are inputs, not exceptions. -/
def runCycle (reg : List City) (ext : City → ExternalResult)
    (mdl : Option (String → Option (SLabel × ℚ))) (now : Nat)
    (st : List MoodPoint) : List MoodPoint :=
  reg.foldl
    (fun s city => upsert (buildMoodPoint city (resolveBulk city (ext city)) mdl now) s)
    st

/-- Modelled from the spec: deduplication used by
`query(unique_per_city=true)` (backend store, absent): keep the most
recent (first) point per distinct city name. -/
def dedupByCity : List MoodPoint → List MoodPoint
  | [] => []
  | p :: rest => p :: dedupByCity (rest.filter (fun q => q.city_name != p.city_name))
termination_by l => l.length
decreasing_by
  simp only [List.length_cons]
  exact Nat.lt_succ_of_le (List.length_filter_le _ _)

/-- `only_city=true` excludes points lacking a city name. -/
def onlyCityFilter (b : Bool) (st : List MoodPoint) : List MoodPoint :=
  if b then st.filter (fun p => p.city_name != "") else st

/-- `unique_per_city=true` keeps one (the most recent) point per city. -/
def uniqueStep (b : Bool) (st : List MoodPoint) : List MoodPoint :=
  if b then dedupByCity st else st

/-- Apply the optional result limit. -/
def takeLimit (limit : Option Nat) (st : List MoodPoint) : List MoodPoint :=
  match limit with
  | some k => st.take k
  | none => st

/-- Modelled from the spec: the Mood Store query (backend store /
`GET /api/moods`, absent): optional limit, `only_city` excludes points
lacking a city name, `unique_per_city` returns at most one (the most
recent) point per distinct city name. -/
def query (limit : Option Nat) (only_city unique_per_city : Bool)
    (st : List MoodPoint) : List MoodPoint :=
  takeLimit limit (uniqueStep unique_per_city (onlyCityFilter only_city st))

/-- Refresh Scheduler state: the single atomic in-progress guard plus an
instrumentation counter of aggregation cycles started. -/
structure SchedState where
  inProgress : Bool
  cyclesStarted : Nat
deriving Repr, DecidableEq

/-- What an explicit refresh trigger observed. -/
inductive TriggerResult where
  | started
  | joined
deriving Repr, DecidableEq

/-- Modelled from the spec: the Refresh Scheduler's single-flight guard
(backend scheduler, absent; spec design note: an explicitly owned
try-begin/complete component with a single atomic guard). An explicit
trigger atomically checks the in-progress flag: if set, it joins (awaits)
the in-flight cycle and reports its result; otherwise it marks the
scheduler in-progress and starts a new aggregation cycle. Concurrent
triggers interleave only at this atomic guard, so any concurrent
execution is a sequential composition of `trigger` steps. -/
def trigger (s : SchedState) : SchedState × TriggerResult :=
  if s.inProgress then (s, .joined)
  else ({ inProgress := true, cyclesStarted := s.cyclesStarted + 1 }, .started)

/-- Modelled from the spec: completion of the in-flight cycle releases
the guard. -/
def complete (s : SchedState) : SchedState :=
  { s with inProgress := false }

/-- Statistics rollup of a city summary (backend response
`statistics` object). -/
structure Stats where
  total_posts : Nat
  positive : Nat
  neutral : Nat
  negative : Nat
  average_score : ℚ
deriving Repr, DecidableEq

/-- One classified post as included in a summary response. -/
structure Post where
  text : String
  platform : String
  score : ℚ
  label : Label
deriving Repr, DecidableEq

/-- Modelled from the spec: Summary Cache entry (backend
`summary_generator.py` cache, absent): narrative, statistics, sample
posts, creation time. -/
structure SummaryEntry where
  city : String
  summary : String
  statistics : Stats
  sample_posts : List Post
  generated_at : Nat
deriving Repr, DecidableEq

/-- Summary cache: map from city name to entry, as an association list. -/
abbrev SummaryCache := List (String × SummaryEntry)

/-- Fixed summary cache TTL, in seconds (45 s). -/
def summaryTTL : Nat := 45

/-- Raw cache lookup, ignoring expiry. -/
def cacheFind (c : SummaryCache) (city : String) : Option SummaryEntry :=
  (c.find? (fun kv => kv.1 == city)).map (fun kv => kv.2)

/-- Modelled from the spec: lazy-expiry cache read (backend
`summary_generator.py` cache, absent): an entry is returned only while
its TTL has not elapsed; expiry is checked on read, never swept. -/
def cacheLookup (c : SummaryCache) (city : String) (now : Nat) :
    Option SummaryEntry :=
  match cacheFind c city with
  | some e => if now < e.generated_at + summaryTTL then some e else none
  | none => none

/-- Cache write: the new entry supersedes any entry for the same city. -/
def cacheStore (c : SummaryCache) (city : String) (e : SummaryEntry) :
    SummaryCache :=
  (city, e) :: c.filter (fun kv => kv.1 != city)

/-- Remove every entry keyed by `city` (used to compare an expired entry
with an absent one). -/
def eraseCity (c : SummaryCache) (city : String) : SummaryCache :=
  c.filter (fun kv => kv.1 != city)

/-- Error taxonomy of the strict on-demand path (spec §7). -/
inductive SummaryError where
  | unknownCity
  | upstreamUnavailable
  | noQualifyingContent
deriving Repr, DecidableEq

/-- Outcome of the strict-mode deep fetch against the content source. -/
inductive FetchOutcome where
  | unreachable
  | fetched (posts : List String)
deriving Repr, DecidableEq

/-- Classify each fetched post (sentiment classifier batch path). -/
def classifyPosts (mdl : Option (String → Option (SLabel × ℚ)))
    (texts : List String) : List Post :=
  texts.map (fun t =>
    { text := t
      platform := "reddit"
      score := (classify mdl t).2
      label := (classify mdl t).1 })

/-- Modelled from the spec: aggregate statistics of a city summary
(counts per label, average score; backend `main.py`, absent). -/
def computeStats (posts : List Post) : Stats :=
  { total_posts := posts.length
    positive := (posts.filter (fun p => p.label == Label.joyful)).length
    neutral := (posts.filter (fun p => p.label == Label.neutral)).length
    negative := (posts.filter (fun p => p.label == Label.anxious)).length
    average_score :=
      if posts.length = 0 then 0
      else (posts.map (fun p => p.score)).sum / (posts.length : ℚ) }

/-- Result of one on-demand summary request, instrumented with the
number of content-source fetches, classifier invocations, and
narrative-generator calls it performed. -/
structure SummaryResult where
  result : Except SummaryError SummaryEntry
  cache : SummaryCache
  fetchCalls : Nat
  classifyCalls : Nat
  narrateCalls : Nat
deriving Repr

/-- Modelled from the spec: the Summary Service strict path (backend
`main.py` `/api/city/summary` with `summary_generator.py` and
`social_fetcher.py` in strict mode, absent). Check the Summary Cache
lazily — a non-expired hit is returned unchanged with no external call;
on a miss, require the city to resolve in the Registry, then fetch real
candidates in strict mode: an unreachable source surfaces
`upstreamUnavailable` and zero qualifying candidates surfaces
`noQualifyingContent` — never a fallback substitution. On success,
classify each qualifying post, compute statistics, invoke the narrative
generator (its failure is likewise surfaced, never replaced by a
template), then write the entry into the cache with the fixed TTL.
`fetchOutcome` and `narrate` abstract the external collaborators. -/
def getCitySummary (reg : List City)
    (mdl : Option (String → Option (SLabel × ℚ))) (cache : SummaryCache)
    (cityName : String) (now : Nat) (fetchOutcome : FetchOutcome)
    (narrate : Stats → List Post → Option String) : SummaryResult :=
  match cacheLookup cache cityName now with
  | some e =>
      { result := .ok e, cache := cache,
        fetchCalls := 0, classifyCalls := 0, narrateCalls := 0 }
  | none =>
    if reg.all (fun c => c.name != cityName) then
      { result := .error .unknownCity, cache := cache,
        fetchCalls := 0, classifyCalls := 0, narrateCalls := 0 }
    else
      match fetchOutcome with
      | .unreachable =>
          { result := .error .upstreamUnavailable, cache := cache,
            fetchCalls := 1, classifyCalls := 0, narrateCalls := 0 }
      | .fetched posts =>
        if (posts.filter qualifies).isEmpty then
          { result := .error .noQualifyingContent, cache := cache,
            fetchCalls := 1, classifyCalls := 0, narrateCalls := 0 }
        else
          match narrate (computeStats (classifyPosts mdl (posts.filter qualifies)))
              (classifyPosts mdl (posts.filter qualifies)) with
          | none =>
              { result := .error .upstreamUnavailable, cache := cache,
                fetchCalls := 1, classifyCalls := (posts.filter qualifies).length,
                narrateCalls := 1 }
          | some txt =>
              { result := .ok
                  { city := cityName, summary := txt,
                    statistics :=
                      computeStats (classifyPosts mdl (posts.filter qualifies)),
                    sample_posts :=
                      (classifyPosts mdl (posts.filter qualifies)).take 5,
                    generated_at := now },
                cache := cacheStore cache cityName
                  { city := cityName, summary := txt,
                    statistics :=
                      computeStats (classifyPosts mdl (posts.filter qualifies)),
                    sample_posts :=
                      (classifyPosts mdl (posts.filter qualifies)).take 5,
                    generated_at := now },
                fetchCalls := 1, classifyCalls := (posts.filter qualifies).length,
                narrateCalls := 1 }

end Backend

/-- C9: the Sidebar's three sentiment counts partition the mood list —
every point falls in exactly one of positive (score > 0.3),
negative (score < -0.3) or neutral (-0.3 ≤ score ≤ 0.3), so
positiveCount + neutralCount + negativeCount equals the total number
of points. -/
theorem sidebar_counts_partition (moods : List Frontend.MoodPoint) :
    Frontend.positiveCount moods + Frontend.neutralCount moods +
      Frontend.negativeCount moods = moods.length := by
  induction moods with
  | nil => rfl
  | cons m t ih =>
    unfold Frontend.positiveCount Frontend.neutralCount Frontend.negativeCount at ih ⊢
    by_cases hp : (3 : ℚ)/10 < m.score
    · have hn : ¬ (m.score < -(3 : ℚ)/10) := by linarith
      have hz : ¬ (-(3 : ℚ)/10 ≤ m.score ∧ m.score ≤ (3 : ℚ)/10) := by
        rintro ⟨-, h2⟩; linarith
      simp [List.filter_cons, hp, hn, hz] at ih ⊢
      omega
    · by_cases hn : m.score < -(3 : ℚ)/10
      · have hz : ¬ (-(3 : ℚ)/10 ≤ m.score ∧ m.score ≤ (3 : ℚ)/10) := by
          rintro ⟨h1, -⟩; linarith
        simp [List.filter_cons, hp, hn, hz] at ih ⊢
        omega
      · have hz : -(3 : ℚ)/10 ≤ m.score ∧ m.score ≤ (3 : ℚ)/10 := by
          constructor <;> linarith
        simp [List.filter_cons, hp, hn, hz] at ih ⊢
        omega

theorem fetchJsonLoop_spec (env : Nat → Api.Outcome) :
    ∀ (n i : Nat) (last : Option Api.FetchErr),
      (Api.fetchJsonLoop env i n last).2 ≤ n ∧
      (1 ≤ n → 1 ≤ (Api.fetchJsonLoop env i n last).2) ∧
      (∀ v, (Api.fetchJsonLoop env i n last).1 = .ok v →
        ∃ s, env (i + (Api.fetchJsonLoop env i n last).2 - 1) = .response true s v) ∧
      (∀ e, (Api.fetchJsonLoop env i n last).1 = .error e →
        (Api.fetchJsonLoop env i n last).2 = n ∧
        (n = 0 → e = last) ∧
        (1 ≤ n → e = some (Api.attemptErr (env (i + n - 1)))) ∧
        (∀ j, j < n → ∀ s b, env (i + j) ≠ .response true s b)) := by
  intro n
  induction n with
  | zero =>
    intro i last
    refine ⟨Nat.le_refl 0, fun h => absurd h (by omega), ?_, ?_⟩
    · intro v hv; exact absurd hv (by simp [Api.fetchJsonLoop])
    · intro e he
      refine ⟨rfl, fun _ => ?_, fun h => absurd h (by omega), fun j hj => absurd hj (by omega)⟩
      simpa [Api.fetchJsonLoop] using he.symm
  | succ n ih =>
    intro i last
    cases henv : env i with
    | throwErr m =>
      have heq : Api.fetchJsonLoop env i (n + 1) last =
          ((Api.fetchJsonLoop env (i + 1) n (some (.network m))).1,
           (Api.fetchJsonLoop env (i + 1) n (some (.network m))).2 + 1) := by
        simp [Api.fetchJsonLoop, henv]
      obtain ⟨h1, _h2, h3, h4⟩ := ih (i + 1) (some (.network m))
      rw [heq]
      refine ⟨by simpa using h1, fun _ => by omega, ?_, ?_⟩
      · intro v hv
        obtain ⟨s, hs⟩ := h3 v hv
        refine ⟨s, ?_⟩
        have hidx : i + 1 + (Api.fetchJsonLoop env (i + 1) n (some (.network m))).2 - 1 =
            i + ((Api.fetchJsonLoop env (i + 1) n (some (.network m))).2 + 1) - 1 := by omega
        rwa [hidx] at hs
      · intro e he
        obtain ⟨hc1, hc2, hc3, hc4⟩ := h4 e he
        refine ⟨by omega, fun h => absurd h (by omega), ?_, ?_⟩
        · intro _
          rcases Nat.eq_zero_or_pos n with hn0 | hnpos
          · subst hn0
            have : e = some (.network m) := hc2 rfl
            simp [this, Api.attemptErr, Nat.add_sub_cancel, henv]
          · have := hc3 hnpos
            have hidx : i + 1 + n - 1 = i + (n + 1) - 1 := by omega
            rwa [hidx] at this
        · intro j hj s b
          cases j with
          | zero => simp [henv]
          | succ j =>
            have := hc4 j (by omega) s b
            have hidx : i + 1 + j = i + (j + 1) := by omega
            rwa [hidx] at this
    | response ok status body =>
      cases ok with
      | true =>
        have heq : Api.fetchJsonLoop env i (n + 1) last = (.ok body, 1) := by
          simp [Api.fetchJsonLoop, henv]
        rw [heq]
        refine ⟨by omega, fun _ => by omega, ?_, ?_⟩
        · intro v hv
          refine ⟨status, ?_⟩
          have hb : body = v := by simpa using hv
          rw [← hb]
          simpa [Nat.add_sub_cancel] using henv
        · intro e he; exact absurd he (by simp)
      | false =>
        have heq : Api.fetchJsonLoop env i (n + 1) last =
            ((Api.fetchJsonLoop env (i + 1) n (some (.http status))).1,
             (Api.fetchJsonLoop env (i + 1) n (some (.http status))).2 + 1) := by
          simp [Api.fetchJsonLoop, henv]
        obtain ⟨h1, _h2, h3, h4⟩ := ih (i + 1) (some (.http status))
        rw [heq]
        refine ⟨by simpa using h1, fun _ => by omega, ?_, ?_⟩
        · intro v hv
          obtain ⟨s, hs⟩ := h3 v hv
          refine ⟨s, ?_⟩
          have hidx : i + 1 + (Api.fetchJsonLoop env (i + 1) n (some (.http status))).2 - 1 =
              i + ((Api.fetchJsonLoop env (i + 1) n (some (.http status))).2 + 1) - 1 := by omega
          rwa [hidx] at hs
        · intro e he
          obtain ⟨hc1, hc2, hc3, hc4⟩ := h4 e he
          refine ⟨by omega, fun h => absurd h (by omega), ?_, ?_⟩
          · intro _
            rcases Nat.eq_zero_or_pos n with hn0 | hnpos
            · subst hn0
              have : e = some (.http status) := hc2 rfl
              simp [this, Api.attemptErr, Nat.add_sub_cancel, henv]
            · have := hc3 hnpos
              have hidx : i + 1 + n - 1 = i + (n + 1) - 1 := by omega
              rwa [hidx] at this
          · intro j hj s b
            cases j with
            | zero =>
              intro h
              rw [Nat.add_zero, henv] at h
              exact Api.Outcome.noConfusion h (fun h1 _ _ => Bool.noConfusion h1)
            | succ j =>
              have := hc4 j (by omega) s b
              have hidx : i + 1 + j = i + (j + 1) := by omega
              rwa [hidx] at this

theorem pickFallback_mem (city : Backend.City) :
    Backend.pickFallback city ∈ Backend.fallbackPool := by
  have hlt : city.name.length % Backend.fallbackPool.length <
      Backend.fallbackPool.length :=
    Nat.mod_lt _ (by simp [Backend.fallbackPool])
  unfold Backend.pickFallback
  rw [List.getD_eq_getElem _ _ hlt]
  exact List.getElem_mem hlt

/-- C2: in background/bulk mode the Content Resolver does not raise (it
is a total function returning exactly one candidate per attempt): if the
external query errors, times out, or yields zero qualifying candidates,
it returns a Fallback-variant candidate whose text is drawn from the
fixed curated pool; otherwise it returns a Real candidate built from the
first qualifying post. -/
theorem resolveBulk_fallback (city : Backend.City) (ext : Backend.ExternalResult) :
    ((ext = .errorResult ∨ ext = .timeoutResult ∨
        ∃ posts, ext = .results posts ∧ posts.filter Backend.qualifies = []) →
      ∃ t, t ∈ Backend.fallbackPool ∧
        Backend.resolveBulk city ext = .fallback t) ∧
    (∀ posts t rest, ext = .results posts →
      posts.filter Backend.qualifies = t :: rest →
      Backend.resolveBulk city ext = .real t "reddit" none none) := by
  constructor
  · rintro (rfl | rfl | ⟨posts, rfl, hq⟩)
    · exact ⟨_, pickFallback_mem city, rfl⟩
    · exact ⟨_, pickFallback_mem city, rfl⟩
    · refine ⟨_, pickFallback_mem city, ?_⟩
      simp [Backend.resolveBulk, hq]
  · rintro posts t rest rfl hq
    simp [Backend.resolveBulk, hq]

theorem resolveBulk_fallback_witness :
    ∃ t, t ∈ Backend.fallbackPool ∧
      Backend.resolveBulk ⟨"Toronto", 0, 0, "NA"⟩ .errorResult = .fallback t :=
  (resolveBulk_fallback ⟨"Toronto", 0, 0, "NA"⟩ .errorResult).1 (Or.inl rfl)

/-- C5: single-flight guarantee of the Refresh Scheduler — when a refresh
cycle is in progress, two concurrent explicit triggers (interleavings of
the atomic guard are sequential compositions of `trigger`) both join the
in-flight cycle, no new aggregation cycle is started, and the scheduler
state is unchanged, so exactly one underlying aggregation cycle (the
in-flight one) serves both triggers. -/
theorem scheduler_single_flight (s : Backend.SchedState) (h : s.inProgress = true) :
    (Backend.trigger s).2 = .joined ∧
    (Backend.trigger (Backend.trigger s).1).2 = .joined ∧
    (Backend.trigger (Backend.trigger s).1).1.cyclesStarted = s.cyclesStarted ∧
    (Backend.trigger (Backend.trigger s).1).1 = s := by
  simp [Backend.trigger, h]

theorem scheduler_single_flight_witness :
    (Backend.trigger (Backend.trigger ⟨true, 1⟩).1).1.cyclesStarted =
      (⟨true, 1⟩ : Backend.SchedState).cyclesStarted :=
  (scheduler_single_flight ⟨true, 1⟩ rfl).2.2.1

/-- C10 (amended): for every environment of attempt outcomes and every
attempts value n ≥ 1, fetchJson makes between 1 and n fetch attempts; a
returned value is the JSON-parse result of the ok response received on
the final attempt made — the parsed body, or null when the body fails to
parse — so a response with a non-ok HTTP status is never returned; if
fetchJson throws, it made all n attempts, none of them produced an ok
response, and the thrown error is the one from the last failed attempt —
in particular, for a non-ok final response, an Error carrying that HTTP
status code. -/
theorem fetchJson_spec (env : Nat → Api.Outcome) (attempts : Nat)
    (h : 1 ≤ attempts) :
    (1 ≤ Api.fetchJsonAttempts env attempts ∧
      Api.fetchJsonAttempts env attempts ≤ attempts) ∧
    (∀ v, Api.fetchJson env attempts = .ok v →
      ∃ s, env (Api.fetchJsonAttempts env attempts - 1) = .response true s v) ∧
    (∀ e, Api.fetchJson env attempts = .error e →
      Api.fetchJsonAttempts env attempts = attempts ∧
      e = some (Api.attemptErr (env (attempts - 1))) ∧
      (∀ st b, env (attempts - 1) = .response false st b →
        e = some (.http st)) ∧
      (∀ j, j < attempts → ∀ s b, env j ≠ .response true s b)) := by
  obtain ⟨h1, h2, h3, h4⟩ := fetchJsonLoop_spec env attempts 0 none
  refine ⟨⟨h2 h, h1⟩, ?_, ?_⟩
  · intro v hv
    obtain ⟨s, hs⟩ := h3 v hv
    exact ⟨s, by simpa using hs⟩
  · intro e he
    obtain ⟨hc1, _hc2, hc3, hc4⟩ := h4 e he
    have he2 : e = some (Api.attemptErr (env (attempts - 1))) := by
      simpa using hc3 h
    refine ⟨hc1, he2, ?_, ?_⟩
    · intro st b hb
      rw [he2, hb]; rfl
    · intro j hj s b
      simpa using hc4 j hj s b

theorem fetchJson_spec_witness :
    1 ≤ Api.fetchJsonAttempts (fun _ => Api.Outcome.response true 200 none) 2 ∧
      Api.fetchJsonAttempts (fun _ => Api.Outcome.response true 200 none) 2 ≤ 2 :=
  (fetchJson_spec (fun _ => Api.Outcome.response true 200 none) 2 (by norm_num)).1

/-- C10 counterexample: with every attempt yielding an ok response whose
body fails to parse as JSON (`res.json().catch(() => null)`), fetchJson
returns null rather than the parsed JSON body of any response, refuting
the claim that a returned value is always the parsed JSON body of an ok
response. -/
theorem fetchJson_not_returnsParsedBody :
    ¬ Api.returnsParsedBody (fun _ => Api.Outcome.response true 200 none) 2 := by
  intro h
  obtain ⟨i, s, j, hi, hj⟩ := h none rfl
  simp at hi


theorem clamp01_nonneg (c : ℚ) : 0 ≤ Backend.clamp01 c :=
  le_max_left 0 _

theorem clamp01_le_one (c : ℚ) : Backend.clamp01 c ≤ 1 :=
  max_le (by norm_num) (min_le_left 1 c)

theorem classify_eq_of_empty (mdl : Option (String → Option (Backend.SLabel × ℚ)))
    (text : String) (ht : (Backend.cleanText text).isEmpty = true) :
    Backend.classify mdl text = (Backend.Label.neutral, 0) := by
  unfold Backend.classify
  rw [if_pos ht]

theorem classify_eq_no_model (text : String)
    (ht : (Backend.cleanText text).isEmpty = false) :
    Backend.classify none text = Backend.heuristicClassify (Backend.cleanText text) := by
  simp [Backend.classify, ht]

theorem classify_eq_model_err (f : String → Option (Backend.SLabel × ℚ)) (text : String)
    (ht : (Backend.cleanText text).isEmpty = false)
    (hf : f (Backend.cleanText text) = none) :
    Backend.classify (some f) text = Backend.heuristicClassify (Backend.cleanText text) := by
  simp [Backend.classify, ht, hf]

theorem classify_eq_model_ok (f : String → Option (Backend.SLabel × ℚ)) (text : String)
    (l : Backend.SLabel) (c : ℚ)
    (ht : (Backend.cleanText text).isEmpty = false)
    (hf : f (Backend.cleanText text) = some (l, c)) :
    Backend.classify (some f) text = (Backend.toLabel l, Backend.remap l c) := by
  simp [Backend.classify, ht, hf]

theorem heuristicClassify_band (t : String) :
    -1 ≤ (Backend.heuristicClassify t).2 ∧ (Backend.heuristicClassify t).2 ≤ 1 ∧
      Backend.bandContains (Backend.heuristicClassify t).1
        (Backend.heuristicClassify t).2 := by
  unfold Backend.heuristicClassify
  by_cases h1 : Backend.countKeywords Backend.negativeKeywords t <
      Backend.countKeywords Backend.positiveKeywords t
  · have hd : (1 : ℚ) ≤ (Backend.countKeywords Backend.positiveKeywords t : ℚ) -
        (Backend.countKeywords Backend.negativeKeywords t : ℚ) := by
      have : ((Backend.countKeywords Backend.negativeKeywords t : ℚ) + 1) ≤
          (Backend.countKeywords Backend.positiveKeywords t : ℚ) := by
        exact_mod_cast h1
      linarith
    rw [if_pos h1]
    have hlo : (3 : ℚ)/10 ≤ min 1 (3/10 +
        ((Backend.countKeywords Backend.positiveKeywords t : ℚ) -
          (Backend.countKeywords Backend.negativeKeywords t : ℚ))/10) :=
      le_min (by norm_num) (by linarith)
    have hhi : min (1 : ℚ) (3/10 +
        ((Backend.countKeywords Backend.positiveKeywords t : ℚ) -
          (Backend.countKeywords Backend.negativeKeywords t : ℚ))/10) ≤ 1 :=
      min_le_left _ _
    exact ⟨by linarith, hhi, hlo, hhi⟩
  · by_cases h2 : Backend.countKeywords Backend.positiveKeywords t <
        Backend.countKeywords Backend.negativeKeywords t
    · have hd : (1 : ℚ) ≤ (Backend.countKeywords Backend.negativeKeywords t : ℚ) -
          (Backend.countKeywords Backend.positiveKeywords t : ℚ) := by
        have : ((Backend.countKeywords Backend.positiveKeywords t : ℚ) + 1) ≤
            (Backend.countKeywords Backend.negativeKeywords t : ℚ) := by
          exact_mod_cast h2
        linarith
      rw [if_neg h1, if_pos h2]
      have hlo : (-1 : ℚ) ≤ max (-1) (-(3/10 +
          ((Backend.countKeywords Backend.negativeKeywords t : ℚ) -
            (Backend.countKeywords Backend.positiveKeywords t : ℚ))/10)) :=
        le_max_left _ _
      have hhi : max (-1 : ℚ) (-(3/10 +
          ((Backend.countKeywords Backend.negativeKeywords t : ℚ) -
            (Backend.countKeywords Backend.positiveKeywords t : ℚ))/10)) ≤ -(3/10) :=
        max_le (by norm_num) (by linarith)
      exact ⟨hlo, by linarith, hlo, hhi⟩
    · rw [if_neg h1, if_neg h2]
      refine ⟨by norm_num, by norm_num, by norm_num, by norm_num⟩

theorem classify_band (mdl : Option (String → Option (Backend.SLabel × ℚ)))
    (text : String) :
    -1 ≤ (Backend.classify mdl text).2 ∧ (Backend.classify mdl text).2 ≤ 1 ∧
      Backend.bandContains (Backend.classify mdl text).1
        (Backend.classify mdl text).2 := by
  cases ht : (Backend.cleanText text).isEmpty with
  | true =>
    rw [classify_eq_of_empty mdl text ht]
    refine ⟨by norm_num, by norm_num, by norm_num, by norm_num⟩
  | false =>
    cases mdl with
    | none =>
      rw [classify_eq_no_model text ht]
      exact heuristicClassify_band _
    | some f =>
      cases hf : f (Backend.cleanText text) with
      | none =>
        rw [classify_eq_model_err f text ht hf]
        exact heuristicClassify_band _
      | some lc =>
        obtain ⟨l, c⟩ := lc
        rw [classify_eq_model_ok f text l c ht hf]
        have hc0 := clamp01_nonneg c
        have hc1 := clamp01_le_one c
        cases l with
        | positive =>
          unfold Backend.toLabel Backend.remap
          refine ⟨by linarith, by linarith, by linarith, by linarith⟩
        | negative =>
          unfold Backend.toLabel Backend.remap
          refine ⟨by linarith, by linarith, by linarith, by linarith⟩
        | neutralCls =>
          unfold Backend.toLabel Backend.remap
          refine ⟨by linarith, by linarith, by linarith, by linarith⟩

/-- C3 (amended): every Mood Point built by the aggregator has its score
in [-1, 1] and the score lies in the band of its label (joyful →
[0.3, 1], anxious → [-1, -0.3], neutral → [-0.3, 0.3]); the claim's
three biconditionals additionally fail at the shared band endpoints
±0.3, where two bands overlap (see the counterexample). -/
theorem moodPoint_score_band (city : Backend.City) (cand : Backend.Candidate)
    (mdl : Option (String → Option (Backend.SLabel × ℚ))) (now : Nat) :
    -1 ≤ (Backend.buildMoodPoint city cand mdl now).score ∧
      (Backend.buildMoodPoint city cand mdl now).score ≤ 1 ∧
      Backend.bandContains (Backend.buildMoodPoint city cand mdl now).label
        (Backend.buildMoodPoint city cand mdl now).score := by
  simpa [Backend.buildMoodPoint] using classify_band mdl cand.text

/-- C3 counterexample: a positive model classification with confidence 0
produces the Mood Point pair (joyful, 0.3); 0.3 lies in both the
positive band [0.3, 1] and the neutral band [-0.3, 0.3], so the claimed
biconditional "neutral iff score ∈ [-0.3, 0.3]" fails for this point. -/
theorem moodPoint_not_bandIffConsistent :
    ¬ Backend.bandIffConsistent
        ((Backend.buildMoodPoint ⟨"Toronto", 0, 0, "NA"⟩
            (.real "the weather in the city is fine today" "reddit" none none)
            (some (fun _ => some (Backend.SLabel.positive, 0))) 0).label,
         (Backend.buildMoodPoint ⟨"Toronto", 0, 0, "NA"⟩
            (.real "the weather in the city is fine today" "reddit" none none)
            (some (fun _ => some (Backend.SLabel.positive, 0))) 0).score) := by
  intro h
  have ht : (Backend.cleanText "the weather in the city is fine today").isEmpty = false := by
    decide
  have hclamp : Backend.clamp01 0 = 0 := by
    unfold Backend.clamp01
    rw [min_eq_right (by norm_num : (0 : ℚ) ≤ 1), max_self]
  have hc : Backend.classify (some (fun _ => some (Backend.SLabel.positive, 0)))
      "the weather in the city is fine today" = (Backend.Label.joyful, 3/10) := by
    rw [classify_eq_model_ok (fun _ => some (Backend.SLabel.positive, 0))
      "the weather in the city is fine today" Backend.SLabel.positive 0 ht rfl]
    simp only [Backend.toLabel, Backend.remap, hclamp]
    norm_num
  have hpair : ((Backend.buildMoodPoint ⟨"Toronto", 0, 0, "NA"⟩
      (.real "the weather in the city is fine today" "reddit" none none)
      (some (fun _ => some (Backend.SLabel.positive, 0))) 0).label,
     (Backend.buildMoodPoint ⟨"Toronto", 0, 0, "NA"⟩
      (.real "the weather in the city is fine today" "reddit" none none)
      (some (fun _ => some (Backend.SLabel.positive, 0))) 0).score) =
      (Backend.Label.joyful, 3/10) := by
    simp only [Backend.buildMoodPoint, Backend.Candidate.text, hc]
  rw [hpair] at h
  obtain ⟨-, -, h3⟩ := h
  have : Backend.Label.joyful = Backend.Label.neutral := h3.mpr (by norm_num)
  exact Backend.Label.noConfusion this

theorem heuristicClassify_balanced (t : String)
    (h : Backend.countKeywords Backend.positiveKeywords t =
      Backend.countKeywords Backend.negativeKeywords t) :
    Backend.heuristicClassify t = (Backend.Label.neutral, 0) := by
  unfold Backend.heuristicClassify
  rw [if_neg (by omega), if_neg (by omega)]

/-- C7: the Sentiment Classifier returns a (label, score) pair for every
input without raising (it is a total function), following the ordered
capability chain: empty cleaned text yields neutral 0.0; else the
trained model is used when it is loaded and returns a result; else —
model missing or failing at runtime — the keyword heuristic; text with
balanced (in particular zero, i.e. unclassifiable) keywords yields
neutral with score 0.0. -/
theorem classifier_chain (mdl : Option (String → Option (Backend.SLabel × ℚ)))
    (text : String) :
    ((Backend.cleanText text).isEmpty = true →
      Backend.classify mdl text = (Backend.Label.neutral, 0)) ∧
    (∀ f l c, mdl = some f → (Backend.cleanText text).isEmpty = false →
      f (Backend.cleanText text) = some (l, c) →
      Backend.classify mdl text = (Backend.toLabel l, Backend.remap l c)) ∧
    (∀ f, mdl = some f → f (Backend.cleanText text) = none →
      Backend.classify mdl text = Backend.classify none text) ∧
    (mdl = none → (Backend.cleanText text).isEmpty = false →
      Backend.classify mdl text = Backend.heuristicClassify (Backend.cleanText text)) ∧
    (Backend.countKeywords Backend.positiveKeywords (Backend.cleanText text) =
        Backend.countKeywords Backend.negativeKeywords (Backend.cleanText text) →
      Backend.classify none text = (Backend.Label.neutral, 0)) := by
  refine ⟨?_, ?_, ?_, ?_, ?_⟩
  · exact classify_eq_of_empty mdl text
  · rintro f l c rfl ht hf
    exact classify_eq_model_ok f text l c ht hf
  · rintro f rfl hf
    cases ht : (Backend.cleanText text).isEmpty with
    | true => rw [classify_eq_of_empty _ text ht, classify_eq_of_empty _ text ht]
    | false => rw [classify_eq_model_err f text ht hf, classify_eq_no_model text ht]
  · rintro rfl ht
    exact classify_eq_no_model text ht
  · intro hk
    cases ht : (Backend.cleanText text).isEmpty with
    | true => exact classify_eq_of_empty none text ht
    | false =>
      rw [classify_eq_no_model text ht]
      exact heuristicClassify_balanced _ hk

theorem classifier_chain_witness :
    Backend.classify none "" = (Backend.Label.neutral, 0) ∧
    Backend.classify (some (fun _ => some (Backend.SLabel.positive, 1)))
        "What a wonderful surprise" =
      (Backend.toLabel Backend.SLabel.positive, Backend.remap Backend.SLabel.positive 1) ∧
    Backend.classify (some (fun _ => none)) "Stressed about the deadline tomorrow." =
      Backend.classify none "Stressed about the deadline tomorrow." ∧
    Backend.classify none "So frustrated with the delays and bad service." =
      Backend.heuristicClassify
        (Backend.cleanText "So frustrated with the delays and bad service.") ∧
    Backend.classify none "The event was okay nothing special." =
      (Backend.Label.neutral, 0) :=
  ⟨(classifier_chain none "").1 (by decide),
   (classifier_chain _ _).2.1 _ Backend.SLabel.positive 1 rfl (by decide) rfl,
   (classifier_chain _ _).2.2.1 _ rfl rfl,
   (classifier_chain none _).2.2.2.1 rfl (by decide),
   (classifier_chain none _).2.2.2.2 (by decide)⟩

theorem upsert_preserves_key (p : Backend.MoodPoint) (st : List Backend.MoodPoint)
    (nm : String) (h : ∃ q ∈ st, q.city_name = nm) :
    ∃ q ∈ Backend.upsert p st, q.city_name = nm := by
  obtain ⟨q, hq, hqn⟩ := h
  by_cases hpq : q.city_name = p.city_name
  · refine ⟨p, List.mem_cons_self _ _, ?_⟩
    rw [← hpq]; exact hqn
  · refine ⟨q, ?_, hqn⟩
    exact List.mem_cons_of_mem _ (List.mem_filter.mpr ⟨hq, by simp [hpq]⟩)

theorem runCycle_preserves_key (ext : Backend.City → Backend.ExternalResult)
    (mdl : Option (String → Option (Backend.SLabel × ℚ))) (now : Nat) :
    ∀ (reg : List Backend.City) (st : List Backend.MoodPoint) (nm : String),
      (∃ q ∈ st, q.city_name = nm) →
      ∃ q ∈ Backend.runCycle reg ext mdl now st, q.city_name = nm := by
  intro reg
  induction reg with
  | nil => intro st nm h; exact h
  | cons c tl ih =>
    intro st nm h
    exact ih _ nm (upsert_preserves_key _ st nm h)

theorem runCycle_covers (ext : Backend.City → Backend.ExternalResult)
    (mdl : Option (String → Option (Backend.SLabel × ℚ))) (now : Nat) :
    ∀ (reg : List Backend.City) (st : List Backend.MoodPoint) (city : Backend.City),
      city ∈ reg →
      ∃ q ∈ Backend.runCycle reg ext mdl now st, q.city_name = city.name := by
  intro reg
  induction reg with
  | nil => intro st city h; exact absurd h (List.not_mem_nil _)
  | cons c tl ih =>
    intro st city h
    rcases List.mem_cons.mp h with rfl | htl
    · exact runCycle_preserves_key ext mdl now tl _ _
        ⟨Backend.buildMoodPoint city (Backend.resolveBulk city (ext city)) mdl now,
          List.mem_cons_self _ _, rfl⟩
    · exact ih _ city htl

theorem mem_runCycle (ext : Backend.City → Backend.ExternalResult)
    (mdl : Option (String → Option (Backend.SLabel × ℚ))) (now : Nat) :
    ∀ (reg : List Backend.City) (st : List Backend.MoodPoint) (p : Backend.MoodPoint),
      p ∈ Backend.runCycle reg ext mdl now st →
      (∃ city ∈ reg,
        p = Backend.buildMoodPoint city (Backend.resolveBulk city (ext city)) mdl now) ∨
      p ∈ st := by
  intro reg
  induction reg with
  | nil => intro st p hp; exact Or.inr hp
  | cons c tl ih =>
    intro st p hp
    rcases ih _ p hp with ⟨city, hc, rfl⟩ | hmem
    · exact Or.inl ⟨city, List.mem_cons_of_mem _ hc, rfl⟩
    · rcases List.mem_cons.mp hmem with rfl | hf
      · exact Or.inl ⟨c, List.mem_cons_self _ _, rfl⟩
      · exact Or.inr (List.mem_filter.mp hf).1

theorem mem_dedupByCity :
    ∀ (n : Nat) (l : List Backend.MoodPoint), l.length ≤ n →
      ∀ p, p ∈ Backend.dedupByCity l → p ∈ l := by
  intro n
  induction n with
  | zero =>
    intro l hl p hp
    cases l with
    | nil => simp [Backend.dedupByCity] at hp
    | cons q rest => simp at hl
  | succ n ih =>
    intro l hl p hp
    cases l with
    | nil => simp [Backend.dedupByCity] at hp
    | cons q rest =>
      simp only [Backend.dedupByCity] at hp
      rcases List.mem_cons.mp hp with rfl | hmem
      · exact List.mem_cons_self _ _
      · have hlen : (rest.filter (fun r => r.city_name != q.city_name)).length ≤ n := by
          have := List.length_filter_le (fun r => r.city_name != q.city_name) rest
          simp only [List.length_cons] at hl
          omega
        exact List.mem_cons_of_mem _
          (List.mem_filter.mp (ih _ hlen p hmem)).1

theorem any_filter_key_ne (rest : List Backend.MoodPoint) (k nm : String)
    (h : nm ≠ k) :
    (rest.filter (fun r => r.city_name != k)).any (fun p => p.city_name == nm) =
      rest.any (fun p => p.city_name == nm) := by
  induction rest with
  | nil => rfl
  | cons r t ih =>
    by_cases hr : r.city_name = k
    · simp only [List.filter_cons, List.any_cons]
      rw [if_neg (by simp [hr])]
      rw [ih]
      have hb : (r.city_name == nm) = false := by
        rw [hr]
        exact beq_eq_false_iff_ne.mpr (Ne.symm h)
      rw [hb, Bool.false_or]
    · simp only [List.filter_cons, List.any_cons]
      rw [if_pos (by simp [hr])]
      simp only [List.any_cons]
      rw [ih]

theorem countP_dedupByCity :
    ∀ (n : Nat) (l : List Backend.MoodPoint) (nm : String), l.length ≤ n →
      (Backend.dedupByCity l).countP (fun p => p.city_name == nm) =
        if l.any (fun p => p.city_name == nm) then 1 else 0 := by
  intro n
  induction n with
  | zero =>
    intro l nm hl
    cases l with
    | nil => simp [Backend.dedupByCity]
    | cons q rest => simp at hl
  | succ n ih =>
    intro l nm hl
    cases l with
    | nil => simp [Backend.dedupByCity]
    | cons q rest =>
      have hlen : (rest.filter (fun r => r.city_name != q.city_name)).length ≤ n := by
        have := List.length_filter_le (fun r => r.city_name != q.city_name) rest
        simp only [List.length_cons] at hl
        omega
      simp only [Backend.dedupByCity, List.countP_cons, List.any_cons]
      rw [ih _ nm hlen]
      by_cases hq : q.city_name = nm
      · have hne : (rest.filter (fun r => r.city_name != q.city_name)).any
            (fun p => p.city_name == nm) = false := by
          rw [List.any_eq_false]
          intro x hx
          have hx2 := List.mem_filter.mp hx
          have hxk : x.city_name ≠ q.city_name := by simpa using hx2.2
          intro hbeq
          have : x.city_name = nm := by simpa using hbeq
          exact hxk (this.trans hq.symm)
        rw [hne]
        simp [hq]
      · have hqb : (q.city_name == nm) = false := beq_eq_false_iff_ne.mpr hq
        rw [any_filter_key_ne rest q.city_name nm (Ne.symm hq)]
        simp [hqb]

/-- C4: after any completed refresh cycle — whatever the per-city
external-query outcomes and the classifier availability, so per-city
resolver or classifier failures never reduce coverage — every city of
the Registry has a Mood Point in the Mood Store, and
query(unique_per_city=true) returns exactly one Mood Point for it. -/
theorem cycle_full_coverage (reg : List Backend.City)
    (ext : Backend.City → Backend.ExternalResult)
    (mdl : Option (String → Option (Backend.SLabel × ℚ))) (now : Nat)
    (st : List Backend.MoodPoint) (city : Backend.City) (h : city ∈ reg) :
    (∃ q ∈ Backend.runCycle reg ext mdl now st, q.city_name = city.name) ∧
    (Backend.query none false true (Backend.runCycle reg ext mdl now st)).countP
        (fun p => p.city_name == city.name) = 1 := by
  have hex := runCycle_covers ext mdl now reg st city h
  refine ⟨hex, ?_⟩
  have hq : Backend.query none false true (Backend.runCycle reg ext mdl now st) =
      Backend.dedupByCity (Backend.runCycle reg ext mdl now st) := rfl
  rw [hq, countP_dedupByCity (Backend.runCycle reg ext mdl now st).length _
    city.name le_rfl]
  obtain ⟨q, hqm, hqn⟩ := hex
  have hany : (Backend.runCycle reg ext mdl now st).any
      (fun p => p.city_name == city.name) = true :=
    List.any_eq_true.mpr ⟨q, hqm, by simp [hqn]⟩
  rw [hany]
  rfl

theorem cycle_full_coverage_witness :
    (∃ q ∈ Backend.runCycle [⟨"Toronto", 0, 0, "NA"⟩]
        (fun _ => Backend.ExternalResult.errorResult) none 0 [],
      q.city_name = (⟨"Toronto", 0, 0, "NA"⟩ : Backend.City).name) ∧
    (Backend.query none false true (Backend.runCycle [⟨"Toronto", 0, 0, "NA"⟩]
        (fun _ => Backend.ExternalResult.errorResult) none 0 [])).countP
        (fun p => p.city_name == (⟨"Toronto", 0, 0, "NA"⟩ : Backend.City).name) = 1 :=
  cycle_full_coverage [⟨"Toronto", 0, 0, "NA"⟩]
    (fun _ => Backend.ExternalResult.errorResult) none 0 []
    ⟨"Toronto", 0, 0, "NA"⟩ (List.mem_singleton_self _)

theorem mem_query (limit : Option Nat) (oc uq : Bool)
    (st : List Backend.MoodPoint) (p : Backend.MoodPoint)
    (hp : p ∈ Backend.query limit oc uq st) : p ∈ st := by
  unfold Backend.query at hp
  have hp2 : p ∈ Backend.uniqueStep uq (Backend.onlyCityFilter oc st) := by
    unfold Backend.takeLimit at hp
    cases limit with
    | some k => exact List.take_subset _ _ hp
    | none => exact hp
  have hp3 : p ∈ Backend.onlyCityFilter oc st := by
    unfold Backend.uniqueStep at hp2
    cases uq with
    | true =>
      rw [if_pos rfl] at hp2
      exact mem_dedupByCity (Backend.onlyCityFilter oc st).length _ le_rfl p hp2
    | false => exact hp2
  unfold Backend.onlyCityFilter at hp3
  cases oc with
  | true =>
    rw [if_pos rfl] at hp3
    exact (List.mem_filter.mp hp3).1
  | false => exact hp3

/-- C8: every record returned by the GET mood-points query is a full
Mood Point record — the `Backend.MoodPoint` structure has exactly the
fields {lat, lng, label, score, source, text?, timestamp, city_name,
is_fallback} — and in particular carries a `city_name` equal to its
originating registry city's name and an `is_fallback` boolean set from
that city's candidate variant. -/
theorem query_record_fields (reg : List Backend.City)
    (ext : Backend.City → Backend.ExternalResult)
    (mdl : Option (String → Option (Backend.SLabel × ℚ))) (now : Nat)
    (limit : Option Nat) (oc uq : Bool) (p : Backend.MoodPoint)
    (hp : p ∈ Backend.query limit oc uq (Backend.runCycle reg ext mdl now [])) :
    ∃ city, city ∈ reg ∧ p.city_name = city.name ∧
      p.is_fallback = (Backend.resolveBulk city (ext city)).isFallback ∧
      p = Backend.buildMoodPoint city (Backend.resolveBulk city (ext city)) mdl now := by
  have hst : p ∈ Backend.runCycle reg ext mdl now [] :=
    mem_query limit oc uq _ p hp
  rcases mem_runCycle ext mdl now reg [] p hst with ⟨city, hc, rfl⟩ | hmem
  · exact ⟨city, hc, rfl, rfl, rfl⟩
  · exact absurd hmem (List.not_mem_nil _)

theorem query_record_fields_witness :
    ∃ city, city ∈ [(⟨"Toronto", 0, 0, "NA"⟩ : Backend.City)] ∧
      (Backend.buildMoodPoint ⟨"Toronto", 0, 0, "NA"⟩
        (Backend.resolveBulk ⟨"Toronto", 0, 0, "NA"⟩
          Backend.ExternalResult.errorResult) none 0).city_name = city.name ∧
      (Backend.buildMoodPoint ⟨"Toronto", 0, 0, "NA"⟩
        (Backend.resolveBulk ⟨"Toronto", 0, 0, "NA"⟩
          Backend.ExternalResult.errorResult) none 0).is_fallback =
        (Backend.resolveBulk city ((fun _ => Backend.ExternalResult.errorResult) city)).isFallback ∧
      Backend.buildMoodPoint ⟨"Toronto", 0, 0, "NA"⟩
          (Backend.resolveBulk ⟨"Toronto", 0, 0, "NA"⟩
            Backend.ExternalResult.errorResult) none 0 =
        Backend.buildMoodPoint city
          (Backend.resolveBulk city ((fun _ => Backend.ExternalResult.errorResult) city))
          none 0 :=
  query_record_fields [⟨"Toronto", 0, 0, "NA"⟩]
    (fun _ => Backend.ExternalResult.errorResult) none 0 none false false
    (Backend.buildMoodPoint ⟨"Toronto", 0, 0, "NA"⟩
      (Backend.resolveBulk ⟨"Toronto", 0, 0, "NA"⟩
        Backend.ExternalResult.errorResult) none 0)
    (List.mem_singleton_self _)

theorem find?_eraseCity (c : Backend.SummaryCache) (city : String) :
    (Backend.eraseCity c city).find? (fun kv => kv.1 == city) = none := by
  rw [List.find?_eq_none]
  intro kv hkv
  have h2 := (List.mem_filter.mp hkv).2
  simp only [bne_iff_ne, ne_eq] at h2
  simp [h2]

theorem cacheLookup_eraseCity (c : Backend.SummaryCache) (city : String)
    (now : Nat) :
    Backend.cacheLookup (Backend.eraseCity c city) city now = none := by
  unfold Backend.cacheLookup Backend.cacheFind
  rw [find?_eraseCity]
  rfl

theorem cacheLookup_none_of_expired (c : Backend.SummaryCache) (city : String)
    (now : Nat) (e : Backend.SummaryEntry)
    (hfind : Backend.cacheFind c city = some e)
    (hexp : e.generated_at + Backend.summaryTTL ≤ now) :
    Backend.cacheLookup c city now = none := by
  unfold Backend.cacheLookup
  rw [hfind]
  simp only []
  rw [if_neg (Nat.not_lt.mpr hexp)]

theorem getCitySummary_hit (reg : List Backend.City)
    (mdl : Option (String → Option (Backend.SLabel × ℚ)))
    (cache : Backend.SummaryCache) (cityName : String) (now : Nat)
    (fo : Backend.FetchOutcome)
    (narrate : Backend.Stats → List Backend.Post → Option String)
    (e : Backend.SummaryEntry)
    (hhit : Backend.cacheLookup cache cityName now = some e) :
    Backend.getCitySummary reg mdl cache cityName now fo narrate =
      { result := .ok e, cache := cache,
        fetchCalls := 0, classifyCalls := 0, narrateCalls := 0 } := by
  simp [Backend.getCitySummary, hhit]

theorem getCitySummary_unknown (reg : List Backend.City)
    (mdl : Option (String → Option (Backend.SLabel × ℚ)))
    (cache : Backend.SummaryCache) (cityName : String) (now : Nat)
    (fo : Backend.FetchOutcome)
    (narrate : Backend.Stats → List Backend.Post → Option String)
    (hmiss : Backend.cacheLookup cache cityName now = none)
    (hall : reg.all (fun c => c.name != cityName) = true) :
    Backend.getCitySummary reg mdl cache cityName now fo narrate =
      { result := .error .unknownCity, cache := cache,
        fetchCalls := 0, classifyCalls := 0, narrateCalls := 0 } := by
  simp [Backend.getCitySummary, hmiss, hall]

theorem getCitySummary_unreachable (reg : List Backend.City)
    (mdl : Option (String → Option (Backend.SLabel × ℚ)))
    (cache : Backend.SummaryCache) (cityName : String) (now : Nat)
    (narrate : Backend.Stats → List Backend.Post → Option String)
    (hmiss : Backend.cacheLookup cache cityName now = none)
    (hall : reg.all (fun c => c.name != cityName) = false) :
    Backend.getCitySummary reg mdl cache cityName now .unreachable narrate =
      { result := .error .upstreamUnavailable, cache := cache,
        fetchCalls := 1, classifyCalls := 0, narrateCalls := 0 } := by
  simp [Backend.getCitySummary, hmiss, hall]

theorem getCitySummary_noContent (reg : List Backend.City)
    (mdl : Option (String → Option (Backend.SLabel × ℚ)))
    (cache : Backend.SummaryCache) (cityName : String) (now : Nat)
    (posts : List String)
    (narrate : Backend.Stats → List Backend.Post → Option String)
    (hmiss : Backend.cacheLookup cache cityName now = none)
    (hall : reg.all (fun c => c.name != cityName) = false)
    (hq : (posts.filter Backend.qualifies).isEmpty = true) :
    Backend.getCitySummary reg mdl cache cityName now (.fetched posts) narrate =
      { result := .error .noQualifyingContent, cache := cache,
        fetchCalls := 1, classifyCalls := 0, narrateCalls := 0 } := by
  simp [Backend.getCitySummary, hmiss, hall, hq]

theorem getCitySummary_narrateFail (reg : List Backend.City)
    (mdl : Option (String → Option (Backend.SLabel × ℚ)))
    (cache : Backend.SummaryCache) (cityName : String) (now : Nat)
    (posts : List String)
    (narrate : Backend.Stats → List Backend.Post → Option String)
    (hmiss : Backend.cacheLookup cache cityName now = none)
    (hall : reg.all (fun c => c.name != cityName) = false)
    (hq : (posts.filter Backend.qualifies).isEmpty = false)
    (hn : narrate
        (Backend.computeStats (Backend.classifyPosts mdl (posts.filter Backend.qualifies)))
        (Backend.classifyPosts mdl (posts.filter Backend.qualifies)) = none) :
    Backend.getCitySummary reg mdl cache cityName now (.fetched posts) narrate =
      { result := .error .upstreamUnavailable, cache := cache,
        fetchCalls := 1, classifyCalls := (posts.filter Backend.qualifies).length,
        narrateCalls := 1 } := by
  simp [Backend.getCitySummary, hmiss, hall, hq, hn]

theorem getCitySummary_ok (reg : List Backend.City)
    (mdl : Option (String → Option (Backend.SLabel × ℚ)))
    (cache : Backend.SummaryCache) (cityName : String) (now : Nat)
    (posts : List String) (txt : String)
    (narrate : Backend.Stats → List Backend.Post → Option String)
    (hmiss : Backend.cacheLookup cache cityName now = none)
    (hall : reg.all (fun c => c.name != cityName) = false)
    (hq : (posts.filter Backend.qualifies).isEmpty = false)
    (hn : narrate
        (Backend.computeStats (Backend.classifyPosts mdl (posts.filter Backend.qualifies)))
        (Backend.classifyPosts mdl (posts.filter Backend.qualifies)) = some txt) :
    Backend.getCitySummary reg mdl cache cityName now (.fetched posts) narrate =
      { result := .ok
          { city := cityName, summary := txt,
            statistics :=
              Backend.computeStats (Backend.classifyPosts mdl (posts.filter Backend.qualifies)),
            sample_posts :=
              (Backend.classifyPosts mdl (posts.filter Backend.qualifies)).take 5,
            generated_at := now },
        cache := Backend.cacheStore cache cityName
          { city := cityName, summary := txt,
            statistics :=
              Backend.computeStats (Backend.classifyPosts mdl (posts.filter Backend.qualifies)),
            sample_posts :=
              (Backend.classifyPosts mdl (posts.filter Backend.qualifies)).take 5,
            generated_at := now },
        fetchCalls := 1, classifyCalls := (posts.filter Backend.qualifies).length,
        narrateCalls := 1 } := by
  simp [Backend.getCitySummary, hmiss, hall, hq, hn]

/-- C1: strict-mode city summary — on a cache miss for a registry city,
an unreachable content source is surfaced as `upstreamUnavailable`, zero
qualifying candidates as `noQualifyingContent`, and narrative-generator
failure as `upstreamUnavailable`; no fallback content is ever
substituted, and an ok (200) result arises only from a nonempty list of
genuinely fetched qualifying posts, whose classification, statistics and
sample posts the returned entry reflects exactly. -/
theorem summary_strict (reg : List Backend.City)
    (mdl : Option (String → Option (Backend.SLabel × ℚ)))
    (cache : Backend.SummaryCache) (cityName : String) (now : Nat)
    (fo : Backend.FetchOutcome)
    (narrate : Backend.Stats → List Backend.Post → Option String)
    (hreg : ∃ c ∈ reg, c.name = cityName)
    (hmiss : Backend.cacheLookup cache cityName now = none) :
    (fo = .unreachable →
      (Backend.getCitySummary reg mdl cache cityName now fo narrate).result =
        .error .upstreamUnavailable) ∧
    (∀ posts, fo = .fetched posts →
      (posts.filter Backend.qualifies).isEmpty = true →
      (Backend.getCitySummary reg mdl cache cityName now fo narrate).result =
        .error .noQualifyingContent) ∧
    (∀ posts, fo = .fetched posts →
      (posts.filter Backend.qualifies).isEmpty = false →
      narrate (Backend.computeStats
          (Backend.classifyPosts mdl (posts.filter Backend.qualifies)))
        (Backend.classifyPosts mdl (posts.filter Backend.qualifies)) = none →
      (Backend.getCitySummary reg mdl cache cityName now fo narrate).result =
        .error .upstreamUnavailable) ∧
    (∀ e, (Backend.getCitySummary reg mdl cache cityName now fo narrate).result =
        .ok e →
      ∃ posts txt, fo = .fetched posts ∧
        (posts.filter Backend.qualifies).isEmpty = false ∧
        narrate (Backend.computeStats
            (Backend.classifyPosts mdl (posts.filter Backend.qualifies)))
          (Backend.classifyPosts mdl (posts.filter Backend.qualifies)) = some txt ∧
        e.statistics = Backend.computeStats
          (Backend.classifyPosts mdl (posts.filter Backend.qualifies)) ∧
        e.statistics.total_posts = (posts.filter Backend.qualifies).length ∧
        e.sample_posts =
          (Backend.classifyPosts mdl (posts.filter Backend.qualifies)).take 5 ∧
        e.summary = txt) := by
  obtain ⟨c0, hc0, hc0n⟩ := hreg
  have hall : reg.all (fun c => c.name != cityName) = false := by
    rw [Bool.eq_false_iff]
    intro hall
    have h2 := List.all_eq_true.mp hall c0 hc0
    rw [hc0n] at h2
    simp at h2
  refine ⟨?_, ?_, ?_, ?_⟩
  · rintro rfl
    rw [getCitySummary_unreachable reg mdl cache cityName now narrate hmiss hall]
  · rintro posts rfl hq
    rw [getCitySummary_noContent reg mdl cache cityName now posts narrate hmiss hall hq]
  · rintro posts rfl hq hn
    rw [getCitySummary_narrateFail reg mdl cache cityName now posts narrate hmiss hall hq hn]
  · intro e he
    cases fo with
    | unreachable =>
      rw [getCitySummary_unreachable reg mdl cache cityName now narrate hmiss hall] at he
      exact absurd he (by simp)
    | fetched posts =>
      cases hq : (posts.filter Backend.qualifies).isEmpty with
      | true =>
        rw [getCitySummary_noContent reg mdl cache cityName now posts narrate
          hmiss hall hq] at he
        exact absurd he (by simp)
      | false =>
        cases hn : narrate (Backend.computeStats
            (Backend.classifyPosts mdl (posts.filter Backend.qualifies)))
          (Backend.classifyPosts mdl (posts.filter Backend.qualifies)) with
        | none =>
          rw [getCitySummary_narrateFail reg mdl cache cityName now posts narrate
            hmiss hall hq hn] at he
          exact absurd he (by simp)
        | some txt =>
          rw [getCitySummary_ok reg mdl cache cityName now posts txt narrate
            hmiss hall hq hn] at he
          have he2 := Except.ok.inj he
          refine ⟨posts, txt, rfl, hq, hn, ?_, ?_, ?_, ?_⟩
          · rw [← he2]
          · rw [← he2]
            simp [Backend.computeStats, Backend.classifyPosts]
          · rw [← he2]
          · rw [← he2]

theorem summary_strict_witness :
    (Backend.getCitySummary [⟨"Toronto", 0, 0, "NA"⟩] none [] "Toronto" 0
        .unreachable (fun _ _ => none)).result =
      .error .upstreamUnavailable :=
  (summary_strict [⟨"Toronto", 0, 0, "NA"⟩] none [] "Toronto" 0
      .unreachable (fun _ _ => none)
      ⟨⟨"Toronto", 0, 0, "NA"⟩, List.mem_singleton_self _, rfl⟩ rfl).1 rfl

/-- C6: Summary Cache behaviour — a request whose city has a non-expired
cache entry returns that entry unchanged with zero fetch, classification
and narrative-generation calls and an unchanged cache; a request whose
entry's TTL has elapsed behaves at read time exactly like one with no
entry at all (same result and same external-call counts as with the
entry erased), expiry being checked lazily on the read itself. -/
theorem summary_cache_behaviour (reg : List Backend.City)
    (mdl : Option (String → Option (Backend.SLabel × ℚ)))
    (cache : Backend.SummaryCache) (cityName : String) (now : Nat)
    (fo : Backend.FetchOutcome)
    (narrate : Backend.Stats → List Backend.Post → Option String) :
    (∀ e, Backend.cacheLookup cache cityName now = some e →
      Backend.getCitySummary reg mdl cache cityName now fo narrate =
        { result := .ok e, cache := cache,
          fetchCalls := 0, classifyCalls := 0, narrateCalls := 0 }) ∧
    (∀ e, Backend.cacheFind cache cityName = some e →
      e.generated_at + Backend.summaryTTL ≤ now →
      (Backend.getCitySummary reg mdl cache cityName now fo narrate).result =
        (Backend.getCitySummary reg mdl (Backend.eraseCity cache cityName)
          cityName now fo narrate).result ∧
      (Backend.getCitySummary reg mdl cache cityName now fo narrate).fetchCalls =
        (Backend.getCitySummary reg mdl (Backend.eraseCity cache cityName)
          cityName now fo narrate).fetchCalls ∧
      (Backend.getCitySummary reg mdl cache cityName now fo narrate).classifyCalls =
        (Backend.getCitySummary reg mdl (Backend.eraseCity cache cityName)
          cityName now fo narrate).classifyCalls ∧
      (Backend.getCitySummary reg mdl cache cityName now fo narrate).narrateCalls =
        (Backend.getCitySummary reg mdl (Backend.eraseCity cache cityName)
          cityName now fo narrate).narrateCalls) := by
  constructor
  · intro e he
    exact getCitySummary_hit reg mdl cache cityName now fo narrate e he
  · intro e hfind hexp
    have h1 := cacheLookup_none_of_expired cache cityName now e hfind hexp
    have h2 := cacheLookup_eraseCity cache cityName now
    cases hall : reg.all (fun c => c.name != cityName) with
    | true =>
      rw [getCitySummary_unknown reg mdl cache cityName now fo narrate h1 hall,
        getCitySummary_unknown reg mdl (Backend.eraseCity cache cityName)
          cityName now fo narrate h2 hall]
      exact ⟨rfl, rfl, rfl, rfl⟩
    | false =>
      cases fo with
      | unreachable =>
        rw [getCitySummary_unreachable reg mdl cache cityName now narrate h1 hall,
          getCitySummary_unreachable reg mdl (Backend.eraseCity cache cityName)
            cityName now narrate h2 hall]
        exact ⟨rfl, rfl, rfl, rfl⟩
      | fetched posts =>
        cases hq : (posts.filter Backend.qualifies).isEmpty with
        | true =>
          rw [getCitySummary_noContent reg mdl cache cityName now posts narrate
              h1 hall hq,
            getCitySummary_noContent reg mdl (Backend.eraseCity cache cityName)
              cityName now posts narrate h2 hall hq]
          exact ⟨rfl, rfl, rfl, rfl⟩
        | false =>
          cases hn : narrate (Backend.computeStats
              (Backend.classifyPosts mdl (posts.filter Backend.qualifies)))
            (Backend.classifyPosts mdl (posts.filter Backend.qualifies)) with
          | none =>
            rw [getCitySummary_narrateFail reg mdl cache cityName now posts narrate
                h1 hall hq hn,
              getCitySummary_narrateFail reg mdl (Backend.eraseCity cache cityName)
                cityName now posts narrate h2 hall hq hn]
            exact ⟨rfl, rfl, rfl, rfl⟩
          | some txt =>
            rw [getCitySummary_ok reg mdl cache cityName now posts txt narrate
                h1 hall hq hn,
              getCitySummary_ok reg mdl (Backend.eraseCity cache cityName)
                cityName now posts txt narrate h2 hall hq hn]
            exact ⟨rfl, rfl, rfl, rfl⟩

theorem summary_cache_behaviour_witness :
    Backend.getCitySummary [⟨"Toronto", 0, 0, "NA"⟩] none
        [("Toronto", ⟨"Toronto", "calm", ⟨1, 1, 0, 0, 0⟩, [], 0⟩)] "Toronto" 10
        .unreachable (fun _ _ => none) =
      { result := .ok ⟨"Toronto", "calm", ⟨1, 1, 0, 0, 0⟩, [], 0⟩,
        cache := [("Toronto", ⟨"Toronto", "calm", ⟨1, 1, 0, 0, 0⟩, [], 0⟩)],
        fetchCalls := 0, classifyCalls := 0, narrateCalls := 0 } ∧
    (Backend.getCitySummary [⟨"Toronto", 0, 0, "NA"⟩] none
        [("Toronto", ⟨"Toronto", "calm", ⟨1, 1, 0, 0, 0⟩, [], 0⟩)] "Toronto" 100
        .unreachable (fun _ _ => none)).result =
      (Backend.getCitySummary [⟨"Toronto", 0, 0, "NA"⟩] none
        (Backend.eraseCity [("Toronto", ⟨"Toronto", "calm", ⟨1, 1, 0, 0, 0⟩, [], 0⟩)]
          "Toronto") "Toronto" 100 .unreachable (fun _ _ => none)).result :=
  ⟨(summary_cache_behaviour [⟨"Toronto", 0, 0, "NA"⟩] none
      [("Toronto", ⟨"Toronto", "calm", ⟨1, 1, 0, 0, 0⟩, [], 0⟩)] "Toronto" 10
      .unreachable (fun _ _ => none)).1
      ⟨"Toronto", "calm", ⟨1, 1, 0, 0, 0⟩, [], 0⟩ rfl,
   ((summary_cache_behaviour [⟨"Toronto", 0, 0, "NA"⟩] none
      [("Toronto", ⟨"Toronto", "calm", ⟨1, 1, 0, 0, 0⟩, [], 0⟩)] "Toronto" 100
      .unreachable (fun _ _ => none)).2
      ⟨"Toronto", "calm", ⟨1, 1, 0, 0, 0⟩, [], 0⟩ rfl (by norm_num [Backend.summaryTTL])).1⟩
